import Mathlib

/-!
Verification development for the BUTLER document-retrieval subsystem
(`rag_system.py`).  Text is modelled as `List Char` (Python `str`), machine
floats as `ℚ` (an exact model of the arithmetic the code performs on
distances), fallible operations as `Except`/`Option`, and the SQLite tables
plus the FAISS index as an explicit record of lists.  Every definition below
is a direct translation of the corresponding Python function; the comment on
each names its source.
-/

/-- Text model: a Python `str` as its list of characters. -/
abbrev Str := List Char

namespace Butler

/-- Python whitespace (as matched by `\s` in `re` and by `str.split()`):
space, tab, newline, carriage return, vertical tab, form feed. -/
def pyIsSpace (c : Char) : Bool :=
  c = ' ' || c = '\t' || c = '\n' || c = '\r' || c = '\x0b' || c = '\x0c'

/-- Character scan of `re.sub(r'\s+', ' ', text)`: the flag records whether
the previous character was inside a whitespace run (whose first character
already emitted the single replacement space). -/
def normalizeAux (inRun : Bool) : Str → Str
  | [] => []
  | c :: cs =>
    if pyIsSpace c then
      if inRun then normalizeAux true cs else ' ' :: normalizeAux true cs
    else c :: normalizeAux false cs

/-- Model of `re.sub(r'\s+', ' ', text)` in `RAGSystem._chunk_text`:
each maximal run of whitespace collapses to a single space. -/
def normalizeWs (s : Str) : Str := normalizeAux false s

/-- Accumulator-passing core of Python `str.split()` (split on whitespace
runs, dropping empty tokens).  `acc` holds the reversed current token. -/
def splitAux (s : Str) (acc : Str) : List Str :=
  match s with
  | [] => if acc = [] then [] else [acc.reverse]
  | c :: cs =>
    if pyIsSpace c then
      if acc = [] then splitAux cs [] else acc.reverse :: splitAux cs []
    else splitAux cs (c :: acc)

/-- Model of Python `str.split()` (no separator argument): whitespace-run
splitting that never produces empty tokens. -/
def pySplit (s : Str) : List Str := splitAux s []

/-- Model of Python `sep.join(tokens)`. -/
def pyJoin (sep : Str) : List Str → Str
  | [] => []
  | [t] => t
  | t :: ts => t ++ sep ++ pyJoin sep ts

/-- Model of Python `range(0, n, p)` for a positive step `p`: the multiples
of `p` below `n`, i.e. `0, p, 2p, …` while `< n`; its length is `⌈n / p⌉`. -/
def pyRangeStep (n p : Nat) : List Nat :=
  (List.range ((n + p - 1) / p)).map (· * p)

/-- Token-level windowing loop of `RAGSystem._chunk_text`: the value of
`words[i:i + chunk_size]` for each `i in range(0, len(words), step)` where
`step = chunk_size - chunk_overlap` (a Python `int`, so the subtraction can
be zero — `range` raises `ValueError` — or negative — `range` is empty). -/
def chunk_windows (chunk_size chunk_overlap : Nat) (words : List Str) :
    Except Unit (List (List Str)) :=
  if chunk_size = chunk_overlap then .error ()
  else if chunk_size < chunk_overlap then .ok []
  else .ok ((pyRangeStep words.length (chunk_size - chunk_overlap)).map
      (fun i => (words.drop i).take chunk_size))

/-- `RAGSystem._chunk_text`: collapse whitespace, split into words, take the
overlapping windows, join each window with single spaces, and keep only the
non-empty joined chunks (the `if chunk:` guard of the loop). -/
def chunk_text (chunk_size chunk_overlap : Nat) (text : Str) :
    Except Unit (List Str) :=
  match chunk_windows chunk_size chunk_overlap (pySplit (normalizeWs text)) with
  | .error e => .error e
  | .ok ws => .ok ((ws.map (pyJoin [' '])).filter (fun c => decide (c ≠ [])))

/-- Row of the `documents` table (the columns used by the query path). -/
structure DocRow where
  id : Str
  title : Str
  doc_type : Str
  department : Str
deriving DecidableEq, Repr

/-- Row of the `document_chunks` table (the columns the code writes and
reads); `chunk_index` is the chunk's position within its own document. -/
structure ChunkRow where
  chunk_id : Str
  doc_id : Str
  chunk_index : Nat
  chunk_text : Str
deriving DecidableEq, Repr

/-- Persistent state touched by ingestion and query: the two SQLite tables
in row-insertion order, and the FAISS index size (`ntotal`).  Vectors are
appended to FAISS in exactly the order chunk rows are appended to
`document_chunks` (see `_index_document`), so the n-th element of `chunks`
is the chunk whose vector has global ordinal n. -/
structure RagState where
  docs : List DocRow
  chunks : List ChunkRow
  indexSize : Nat
deriving DecidableEq, Repr

/-- The empty store and index. -/
def emptyState : RagState := ⟨[], [], 0⟩

/-- Decimal rendering of a `Nat` (Python `str(i)` inside an f-string). -/
def natStr (n : Nat) : Str := (Nat.repr n).data

/-- The chunk-row id `f"{document.id}_chunk_{i}"` of `_index_document`. -/
def mkChunkId (docId : Str) (i : Nat) : Str :=
  docId ++ ("_chunk_").data ++ natStr i

/-- `RAGSystem._store_document`: a plain SQL `INSERT` into `documents`.
`id` is the table's PRIMARY KEY, so inserting an id already present raises
`sqlite3.IntegrityError` (modelled as `.error`); otherwise the row is
appended.  (Columns not read back by the query path are omitted.) -/
def store_document (st : RagState) (d : DocRow) : Except Unit RagState :=
  if st.docs.any (fun r => r.id = d.id) then .error ()
  else .ok { st with docs := st.docs ++ [d] }

/-- `RAGSystem._index_document`: append one vector per chunk to the FAISS
index (`self.vector_index.add`), then insert one `document_chunks` row per
chunk with `chunk_index = i`, in the same order. -/
def index_document (st : RagState) (docId : Str) (chunkTexts : List Str) :
    RagState :=
  { st with
    indexSize := st.indexSize + chunkTexts.length
    chunks := st.chunks ++ chunkTexts.enum.map (fun p =>
      { chunk_id := mkChunkId docId p.1
        doc_id := docId
        chunk_index := p.1
        chunk_text := p.2 }) }

/-- Storage-level effect of `RAGSystem.process_document` on an already
extracted text: chunk with `chunk_size = 500`, `chunk_overlap = 100`
(the constructor's configuration), store the document row, then index the
chunks.  `docId` stands for `hashlib.md5(f"{file_path}{datetime.now()}")`:
the id the code derives from the path and the current time — only its
(in)equality with previously stored ids matters below. -/
def process_document (st : RagState) (docId title doc_type department : Str)
    (content : Str) : Except Unit RagState := do
  let chunks ← chunk_text 500 100 content
  let st1 ← store_document st
    { id := docId, title := title, doc_type := doc_type,
      department := department }
  .ok (index_document st1 docId chunks)

/-- The (document id, chunk text) pair whose vector-insertion order into the
FAISS index was `o` — the pair the spec's `get_chunk_by_ordinal` must
return. -/
def ordinalPair (st : RagState) (o : Nat) : Option (Str × Str) :=
  (st.chunks.get? o).map (fun c => (c.doc_id, c.chunk_text))

/-- The hydration lookup inside `RAGSystem.query_documents`:
`SELECT c.chunk_text, c.doc_id, d.title, d.department, d.doc_type FROM
document_chunks c JOIN documents d ON c.doc_id = d.id WHERE
c.chunk_index = ?` followed by `fetchone()`.  The `WHERE` clause compares
the per-document `chunk_index` with the global FAISS ordinal; `fetchone`
takes the first row of the join in table order. -/
def get_chunk_row (st : RagState) (idx : Nat) : Option (ChunkRow × DocRow) :=
  (st.chunks.filterMap (fun c =>
    if c.chunk_index = idx then
      (st.docs.find? (fun d => d.id = c.doc_id)).map (fun d => (c, d))
    else none)).head?

/-- Relevance score `1 / (1 + distance)` of `query_documents`, over an
exact-rational model of the float arithmetic. -/
def relevance (distance : ℚ) : ℚ := 1 / (1 + distance)

/-- One element of the result list of `query_documents`. -/
structure QueryResult where
  document_id : Str
  title : Str
  department : Str
  doc_type : Str
  chunk : Str
  relevance_score : ℚ
deriving DecidableEq, Repr

/-- Guard `if filter and value != filter: continue` of `query_documents`:
`true` when no filter is active or the row's value matches it. -/
def passesFilter (filter : Option Str) (value : Str) : Bool :=
  match filter with
  | none => true
  | some f => value = f

/-- Body of the result loop of `RAGSystem.query_documents` for one FAISS
candidate `(idx, distance)`: hydrate via the chunk lookup; skip (`continue`)
when no row is found or when an active department / doc-type filter fails;
otherwise build the result record. -/
def hydrate_candidate (st : RagState) (department doc_type : Option Str)
    (cand : Nat × ℚ) : Option QueryResult :=
  match get_chunk_row st cand.1 with
  | none => none
  | some (c, d) =>
    if passesFilter department d.department ∧ passesFilter doc_type d.doc_type
    then some ⟨c.doc_id, d.title, d.department, d.doc_type,
      c.chunk_text, relevance cand.2⟩
    else none

/-- `RAGSystem.query_documents` downstream of the FAISS call: `cands` is
the list of `(ordinal, distance)` pairs the index's `search` returned
(FAISS `IndexFlatL2.search` returns at most `top_k` of them, ordered by
ascending L2 distance); the loop appends one result per surviving
candidate, in candidate order. -/
def query_documents (st : RagState) (department doc_type : Option Str)
    (cands : List (Nat × ℚ)) : List QueryResult :=
  cands.filterMap (hydrate_candidate st department doc_type)

/-- Scan of Python `s.replace(old, new)`, structurally recursive on a fuel
argument: each step either skips one character or consumes a whole match
(at least one character when `old ≠ []`), so `fuel = s.length` always
suffices and the fuel-exhausted arm is never reached on that call. -/
def replaceAllFuel (old new : Str) : Nat → Str → Str
  | _, [] => []
  | 0, s => s
  | fuel + 1, c :: cs =>
    if old ≠ [] ∧ old.isPrefixOf (c :: cs) then
      new ++ replaceAllFuel old new fuel ((c :: cs).drop old.length)
    else c :: replaceAllFuel old new fuel cs

/-- Model of Python `s.replace(old, new)` for non-empty `old`: scan left to
right, replace each non-overlapping occurrence, never rescanning replacement
text.  (For `old = []` every position trivially matches; the guard keeps the
scan moving — `generate_document` only ever calls it with `"{key}"`.) -/
def replaceAll (old new s : Str) : Str := replaceAllFuel old new s.length s

/-- The literal placeholder `f"{{{key}}}"` that `generate_document`
replaces. -/
def braceKey (key : Str) : Str := '\x7b' :: key ++ ['\x7d']

/-- The substitution loop of `RAGSystem.generate_document`:
`for key, value in variables.items(): template = template.replace(...)`.
The variables mapping is a Python `dict`, iterated in insertion order,
modelled as an association list. -/
def fillVariables (template : Str) (vars : List (Str × Str)) : Str :=
  vars.foldl (fun t kv => replaceAll (braceKey kv.1) kv.2 t) template

/-- A `\w` character of Python `re`: letter, digit or underscore. -/
def isWordChar (c : Char) : Bool := c.isAlphanum || c = '_'

/-- Scan of `re.findall(r'\{(\w+)\}', template)`, structurally recursive on
a fuel argument: each step consumes at least one character, so
`fuel = s.length` always suffices. -/
def findPlaceholdersFuel : Nat → Str → List Str
  | _, [] => []
  | 0, _ => []
  | fuel + 1, c :: cs =>
    if c = '\x7b' then
      match cs.dropWhile isWordChar with
      | '\x7d' :: rs =>
        if cs.takeWhile isWordChar = [] then findPlaceholdersFuel fuel cs
        else cs.takeWhile isWordChar :: findPlaceholdersFuel fuel rs
      | _ => findPlaceholdersFuel fuel cs
    else findPlaceholdersFuel fuel cs

/-- Model of `re.findall(r'\{(\w+)\}', template)`: the inner words of the
`{word}` placeholders, left to right, non-overlapping (`\w+` is greedy, and
since no word character is `}` greediness is exact). -/
def findPlaceholders (s : Str) : List Str := findPlaceholdersFuel s.length s

/-- `RAGSystem.generate_document`: unknown template name raises
`ValueError` (`.error`); otherwise every variable is substituted in turn
and the placeholders still present in the filled output are the warning
list the code logs (`Missing variables in template: ...`).  The Python
returns only the filled string and logs the list; the model returns both.
Templates are the `name ↦ template-text` mapping of `_load_templates` (the
unused `title` field is omitted). -/
def generate_document (templates : List (Str × Str)) (name : Str)
    (vars : List (Str × Str)) : Except Unit (Str × List Str) :=
  match (templates.find? (fun p => p.1 = name)).map (fun p => p.2) with
  | none => .error ()
  | some t =>
    .ok (fillVariables t vars, findPlaceholders (fillVariables t vars))

/-- Join text lines with newlines (the shape of the triple-quoted template
literals: a leading and a trailing newline, one line per row). -/
def joinLines (ls : List Str) : Str := pyJoin ['\n'] ls

/-- The `court_summons` template text of `_load_templates`. -/
def court_summons_template : Str := joinLines [
  ("").data,
  ("COURT SUMMONS").data,
  ("").data,
  ("THE STATE OF TEXAS").data,
  ("COUNTY OF {county}").data,
  ("").data,
  ("TO: {defendant_name}").data,
  ("ADDRESS: {defendant_address}").data,
  ("").data,
  ("YOU ARE HEREBY COMMANDED to appear before the {court_name} Court of {county} County, Texas,").data,
  ("at {court_address}, on {appearance_date} at {appearance_time}.").data,
  ("").data,
  ("CASE NUMBER: {case_number}").data,
  ("PLAINTIFF: {plaintiff_name}").data,
  ("DEFENDANT: {defendant_name}").data,
  ("").data,
  ("NATURE OF SUIT: {suit_description}").data,
  ("").data,
  ("You are further notified that if you fail to appear as commanded, a default judgment may be").data,
  ("entered against you granting the relief demanded in the petition.").data,
  ("").data,
  ("ISSUED this {issue_date}.").data,
  ("").data,
  ("_____________________").data,
  ("CLERK OF COURT").data,
  ("{county} County, Texas").data,
  ("").data,
  ("By: _____________________").data,
  ("    Deputy Clerk").data,
  ("").data]

/-- The `public_notice` template text of `_load_templates`. -/
def public_notice_template : Str := joinLines [
  ("").data,
  ("PUBLIC NOTICE").data,
  ("").data,
  ("{county} COUNTY, TEXAS").data,
  ("").data,
  ("NOTICE OF {notice_type}").data,
  ("").data,
  ("Date: {date}").data,
  ("Time: {time}").data,
  ("Location: {location}").data,
  ("").data,
  ("The {department} of {county} County hereby provides notice of {notice_subject}.").data,
  ("").data,
  ("DETAILS:").data,
  ("{notice_details}").data,
  ("").data,
  ("PUBLIC PARTICIPATION:").data,
  ("{participation_info}").data,
  ("").data,
  ("For more information, contact:").data,
  ("{contact_name}").data,
  ("{contact_title}").data,
  ("{contact_phone}").data,
  ("{contact_email}").data,
  ("").data,
  ("This notice is posted in accordance with Texas Local Government Code Chapter {code_reference}.").data,
  ("").data,
  ("Posted: {post_date}").data,
  ("").data]

/-- The `foia_response` template text of `_load_templates`. -/
def foia_response_template : Str := joinLines [
  ("").data,
  ("{department}").data,
  ("{county} County, Texas").data,
  ("{department_address}").data,
  ("").data,
  ("{date}").data,
  ("").data,
  ("{requestor_name}").data,
  ("{requestor_address}").data,
  ("").data,
  ("RE: Public Information Request #{request_number}").data,
  ("").data,
  ("Dear {requestor_name}:").data,
  ("").data,
  ("This letter is in response to your request for public information received on {request_date}.").data,
  ("").data,
  ("REQUEST SUMMARY:").data,
  ("{request_summary}").data,
  ("").data,
  ("RESPONSE:").data,
  ("{response_type}").data,
  ("").data,
  ("{response_details}").data,
  ("").data,
  ("FEES:").data,
  ("{fee_information}").data,
  ("").data,
  ("APPEAL RIGHTS:").data,
  ("You may appeal this decision to the Office of the Attorney General of Texas within {appeal_days} days.").data,
  ("").data,
  ("Sincerely,").data,
  ("").data,
  ("{responder_name}").data,
  ("{responder_title}").data,
  ("Public Information Coordinator").data,
  ("").data]

/-- The template table built by `RAGSystem._load_templates`. -/
def butlerTemplates : List (Str × Str) := [
  (("court_summons").data, court_summons_template),
  (("public_notice").data, public_notice_template),
  (("foia_response").data, foia_response_template)]

/-- The page loop of `RAGSystem._extract_pdf_text`:
`text += page.extract_text() + "\n"` for each page; a page that raises
aborts the loop (the `except` catches it, logs, and the accumulated `text`
is returned).  Each list entry is one page's extraction outcome. -/
def pdfLoop (acc : Str) (pages : List (Except Unit Str)) : Str :=
  match pages with
  | [] => acc
  | .ok t :: rest => pdfLoop (acc ++ t ++ ['\n']) rest
  | .error _ :: _ => acc

/-- `RAGSystem._extract_pdf_text`: `text = ""`, then the page loop inside
`try`; opening or reading the file may itself raise before any page is seen
(the `.error` input), in which case `text` is still `""`.  The exception is
caught and logged and `text` is returned as is. -/
def extract_pdf_text (source : Except Unit (List (Except Unit Str))) : Str :=
  match source with
  | .error _ => []
  | .ok pages => pdfLoop [] pages

/-- `RAGSystem._extract_docx_text`: join the paragraph texts with newlines;
any exception is caught and logged and the empty string is returned. -/
def extract_docx_text (source : Except Unit (List Str)) : Str :=
  match source with
  | .error _ => []
  | .ok paragraphs => pyJoin ['\n'] paragraphs

/-- One entry of `context_docs` as `_fallback_answer` reads it: the
`title`, `department` and `chunk` fields of a query-result dict. -/
structure CtxDoc where
  title : Str
  department : Str
  chunk : Str
deriving DecidableEq, Repr

/-- The fixed no-results message of `_fallback_answer`. -/
def noDocsMsg : Str :=
  ("I couldn\x27t find any relevant documents to answer your question.").data

/-- The enumerated entry `_fallback_answer` appends for the `i`-th (1-based)
context document: `f"{i}. From '{title}' ({department}):\n"` followed by
`f"   {chunk[:200]}...\n\n"`. -/
def fallbackItem (i : Nat) (doc : CtxDoc) : Str :=
  natStr i ++ (". From \x27").data ++ doc.title ++ ("\x27 (").data ++
    doc.department ++ ("):\n   ").data ++ doc.chunk.take 200 ++ ("...\n\n").data

/-- `RAGSystem._fallback_answer`: the fixed message when `context_docs` is
empty; otherwise a header, one enumerated entry per document of
`context_docs[:3]` (1-based `enumerate`), and a trailing line echoing the
question. -/
def fallback_answer (question : Str) (context_docs : List CtxDoc) : Str :=
  if context_docs = [] then noDocsMsg
  else
    (((context_docs.take 3).enumFrom 1).foldl
        (fun acc p => acc ++ fallbackItem p.1 p.2)
        ("Based on the documents in our system:\n\n").data) ++
      ("\nThese documents may contain the information you\x27re looking for regarding: ").data ++
      question

/-- Outcome of the generative backend for one `answer_question` call:
the `use_ollama and self.butler and hasattr(...)` guard can fail
(`unavailable`), `generate_response` can raise (`failure`, caught by the
`except`), or it returns text (`success`). -/
inductive AiOutcome where
  | unavailable
  | failure
  | success (text : Str)
deriving DecidableEq, Repr

/-- `RAGSystem.answer_question`: the generative path returns the backend's
text verbatim; when the backend is unavailable or errors, the deterministic
`_fallback_answer` is returned instead. -/
def answer_question (outcome : AiOutcome) (question : Str)
    (context_docs : List CtxDoc) : Str :=
  match outcome with
  | .success t => t
  | .failure => fallback_answer question context_docs
  | .unavailable => fallback_answer question context_docs

/-- Substring containment: `t` occurs contiguously inside `s`
(`∃ p q, s = p ++ t ++ q`). -/
def containsSub (s t : Str) : Prop := t <:+: s

instance (s t : Str) : Decidable (containsSub s t) :=
  List.decidableInfix t s

/-- Scenario for the ordinal-synchronization claim: document A with two
chunks, then document B with one chunk, each stored and indexed by the
ingestion path (`_store_document` then `_index_document`). -/
def c1_docA : DocRow :=
  ⟨("docA").data, ("A").data, ("policy").data, ("clerk").data⟩

def c1_docB : DocRow :=
  ⟨("docB").data, ("B").data, ("policy").data, ("court").data⟩

def c1_ingest : Except Unit RagState := do
  let s1 ← store_document emptyState c1_docA
  let s2 := index_document s1 c1_docA.id [("a0").data, ("a1").data]
  let s3 ← store_document s2 c1_docB
  return index_document s3 c1_docB.id [("b0").data]

def c1_state : RagState := c1_ingest.toOption.getD emptyState

/-- Scenario for the re-ingestion claim: the same file content ingested
twice.  The code derives a fresh id from the path and the wall clock each
time, so the two calls carry distinct ids; `c2_content` chunks into one
chunk under the configured `chunk_size = 500`, `chunk_overlap = 100`. -/
def c2_content : Str := ("alpha beta").data

def c2_first : Except Unit RagState :=
  process_document emptyState (("id-t1").data) (("f").data) (("policy").data)
    (("clerk").data) c2_content

def c2_state1 : RagState := c2_first.toOption.getD emptyState

def c2_second : Except Unit RagState :=
  process_document c2_state1 (("id-t2").data) (("f").data) (("policy").data)
    (("clerk").data) c2_content

def c2_state2 : RagState := c2_second.toOption.getD emptyState

/-- Scenario for the filtering claim: document A (department `clerk`) with
two chunks, then document B (department `court`) with five chunks; the five
FAISS candidates 0–4 all resolve through the chunk lookup, and the
department filter `clerk` matches exactly two of them. -/
def c5_docA : DocRow :=
  ⟨("dA").data, ("A").data, ("policy").data, ("clerk").data⟩

def c5_docB : DocRow :=
  ⟨("dB").data, ("B").data, ("policy").data, ("court").data⟩

def c5_ingest : Except Unit RagState := do
  let s1 ← store_document emptyState c5_docA
  let s2 := index_document s1 c5_docA.id [("a0").data, ("a1").data]
  let s3 ← store_document s2 c5_docB
  return index_document s3 c5_docB.id
    [("b0").data, ("b1").data, ("b2").data, ("b3").data, ("b4").data]

def c5_state : RagState := c5_ingest.toOption.getD emptyState

def c5_cands : List (Nat × ℚ) :=
  [(0, 1/10), (1, 2/10), (2, 3/10), (3, 4/10), (4, 5/10)]

/-- Scenario for the ranking claim: one document with two chunks at
distances 1/10 and 9/10 from the query. -/
def c6_ingest : Except Unit RagState := do
  let s1 ← store_document emptyState c1_docA
  return index_document s1 c1_docA.id [("a0").data, ("a1").data]

def c6_state : RagState := c6_ingest.toOption.getD emptyState

def c6_r1 : QueryResult :=
  ⟨("docA").data, ("A").data, ("clerk").data, ("policy").data,
    ("a0").data, relevance (1/10)⟩

def c6_r2 : QueryResult :=
  ⟨("docA").data, ("A").data, ("clerk").data, ("policy").data,
    ("a1").data, relevance (9/10)⟩

/-- Scenario for the fallback claim: three retrieved results. -/
def c7_docs : List CtxDoc := [
  ⟨("Budget Report").data, ("finance").data, ("fiscal year numbers").data⟩,
  ⟨("Court Order").data, ("court").data, ("order text").data⟩,
  ⟨("Policy Memo").data, ("admin").data, ("memo text").data⟩]

/-! Shared lemmas. -/

theorem containsSub_extend_left {s t : Str} (u : Str) (h : containsSub s t) :
    containsSub (u ++ s) t := by
  obtain ⟨p, q, rfl⟩ := h
  exact ⟨u ++ p, q, by simp⟩

theorem containsSub_extend_right {s t : Str} (u : Str) (h : containsSub s t) :
    containsSub (s ++ u) t := by
  obtain ⟨p, q, rfl⟩ := h
  exact ⟨p, q ++ u, by simp⟩

theorem containsSub_join_of_mem {l : List Str} {x : Str} (h : x ∈ l) :
    containsSub l.flatten x := by
  induction l with
  | nil => cases h
  | cons a as ih =>
    rcases List.mem_cons.mp h with rfl | h
    · exact ⟨[], as.flatten, by simp⟩
    · exact containsSub_extend_left a (ih h)

theorem foldl_append_join {α : Type} (f : α → Str) (l : List α) :
    ∀ acc : Str, l.foldl (fun a p => a ++ f p) acc = acc ++ (l.map f).flatten := by
  induction l with
  | nil => intro acc; simp
  | cons p ps ih => intro acc; simp [ih, List.append_assoc]

theorem exists_mem_enumFrom {α : Type} {x : α} :
    ∀ {l : List α} (n : Nat), x ∈ l → ∃ i, (i, x) ∈ l.enumFrom n := by
  intro l
  induction l with
  | nil => intro n h; cases h
  | cons a as ih =>
    intro n h
    rcases List.mem_cons.mp h with rfl | h
    · exact ⟨n, List.mem_cons_self _ _⟩
    · obtain ⟨i, hi⟩ := ih (n + 1) h
      exact ⟨i, List.mem_cons_of_mem _ hi⟩

theorem pdfLoop_ok_prefix (ts : List Str) :
    ∀ (acc : Str) (rest : List (Except Unit Str)),
      pdfLoop acc (ts.map .ok ++ .error () :: rest) =
        acc ++ (ts.map (fun t => t ++ ['\n'])).flatten := by
  induction ts with
  | nil => intro acc rest; simp [pdfLoop]
  | cons t ts ih => intro acc rest; simp [pdfLoop, ih, List.append_assoc]

theorem replaceAllFuel_of_not_contains (old new : Str) :
    ∀ (fuel : Nat) (t : Str), ¬ containsSub t old →
      replaceAllFuel old new fuel t = t := by
  intro fuel
  induction fuel with
  | zero => intro t _; cases t <;> rfl
  | succ n ih =>
    intro t hc
    match t with
    | [] => rfl
    | c :: cs =>
      simp only [replaceAllFuel]
      split
      case isTrue h =>
        exfalso
        obtain ⟨q, hq⟩ := List.isPrefixOf_iff_prefix.mp h.2
        exact hc ⟨[], q, by rw [List.nil_append]; exact hq⟩
      case isFalse h =>
        have hcs : ¬ containsSub cs old := by
          rintro ⟨p, q, rfl⟩
          exact hc ⟨c :: p, q, by simp⟩
        rw [ih cs hcs]

theorem replaceAll_of_not_contains (old new t : Str)
    (h : ¬ containsSub t old) : replaceAll old new t = t :=
  replaceAllFuel_of_not_contains old new t.length t h

theorem hydrate_candidate_score {st : RagState} {f g : Option Str}
    {c : Nat × ℚ} {r : QueryResult}
    (h : hydrate_candidate st f g c = some r) :
    r.relevance_score = relevance c.2 := by
  unfold hydrate_candidate at h
  rcases hg : get_chunk_row st c.1 with _ | ⟨cr, dr⟩
  · rw [hg] at h; cases h
  · rw [hg] at h
    simp only at h
    split at h
    · cases h; rfl
    · cases h

/-! Claim theorems. -/

/-- C1 (code bug): after ingesting document A (two chunks) and then
document B (one chunk), the vector whose insertion order is the global
ordinal 2 belongs to B's chunk `b0`, yet the hydration lookup of
`query_documents` — which filters `document_chunks` by the *per-document*
`chunk_index` — finds no row at all for ordinal 2: the lookup does not
resolve the ordinal to the pair whose insertion order was 2. -/
theorem C1_ordinal_desync :
    c1_ingest = .ok c1_state ∧
    ordinalPair c1_state 2 = some (c1_docB.id, ("b0").data) ∧
    get_chunk_row c1_state 2 = none := by
  refine ⟨rfl, rfl, rfl⟩

set_option maxRecDepth 4000 in
/-- C2 (code bug): ingesting the identical file twice is not idempotent.
Each call derives a fresh id from the wall clock, so the second call
inserts a second `documents` row and re-appends every chunk to the store
and the vector index: 2 document records, doubled chunk count, doubled
index size.  Even with an identical id the second call raises (plain SQL
`INSERT` on the primary key) instead of replacing. -/
theorem C2_reingest_duplicates :
    c2_first = .ok c2_state1 ∧
    c2_second = .ok c2_state2 ∧
    (c2_state1.docs.length = 1 ∧ c2_state1.chunks.length = 1 ∧
      c2_state1.indexSize = 1) ∧
    (c2_state2.docs.length = 2 ∧ c2_state2.chunks.length = 2 ∧
      c2_state2.indexSize = 2) ∧
    process_document c2_state1 (("id-t1").data) (("f").data)
      (("policy").data) (("clerk").data) c2_content = .error () := by
  exact ⟨rfl, rfl, ⟨rfl, rfl, rfl⟩, ⟨rfl, rfl, rfl⟩, rfl⟩

set_option maxRecDepth 4000 in
/-- C4 (code bug): with `chunk_size < overlap` (step negative) the chunker
silently returns an empty chunk list instead of failing fast; only the
exact `chunk_size = overlap` case (step zero) raises, via `range`'s
`ValueError`. -/
theorem C4_misconfig_silent_success :
    chunk_text 100 200 (("alpha beta gamma").data) = .ok [] ∧
    chunk_text 200 200 (("alpha beta gamma").data) = .error () := by
  exact ⟨rfl, rfl⟩

/-- C9 (counterexample): a PDF whose first page extracts `"A"` and whose
second page raises is an extraction failure, yet `_extract_pdf_text`
returns the accumulated `"A\n"`, not the empty string the claim
promises. -/
theorem C9_pdf_partial_counterexample :
    extract_pdf_text (.ok [.ok [('A' : Char)], .error ()]) =
      ['A', '\n'] ∧ (['A', '\n'] : Str) ≠ [] := by
  exact ⟨rfl, by decide⟩

/-- C9 (amended): every extraction failure is caught (the extractor
returns normally): DOCX failures yield the empty string; a PDF failure
yields exactly the page text accumulated before the failing page — the
empty string when opening the file fails or the first page raises. -/
theorem C9_extraction_caught :
    extract_docx_text (.error ()) = [] ∧
    extract_pdf_text (.error ()) = [] ∧
    (∀ rest : List (Except Unit Str),
      extract_pdf_text (.ok (.error () :: rest)) = []) ∧
    (∀ (ts : List Str) (rest : List (Except Unit Str)),
      extract_pdf_text (.ok (ts.map .ok ++ .error () :: rest)) =
        (ts.map (fun t => t ++ ['\n'])).flatten) := by
  refine ⟨rfl, rfl, fun rest => rfl, fun ts rest => ?_⟩
  have h := pdfLoop_ok_prefix ts [] rest
  simpa [extract_pdf_text] using h

/-- C3: with `chunk_size = 500` and `overlap = 100`, a 1200-token input
yields exactly the three windows starting at offsets 0, 400, 800; windows
0 and 1 share exactly the 100 tokens at positions 400–499; the
non-overlapping spans concatenate back to the input losslessly; every
window is non-empty (so the empty-window drop removes nothing); and in
general window `i` starts at token offset `i * (chunk_size - overlap)` and
spans at most `chunk_size` tokens. -/
theorem C3_chunking :
    (∀ words : List Str, words.length = 1200 →
      chunk_windows 500 100 words =
        .ok [words.take 500, (words.drop 400).take 500, words.drop 800] ∧
      (words.take 500).drop 400 = (words.drop 400).take 100 ∧
      ((words.take 500).drop 400).length = 100 ∧
      words.take 400 ++ (words.drop 400).take 400 ++ words.drop 800 = words ∧
      ∀ w ∈ [words.take 500, (words.drop 400).take 500, words.drop 800],
        w ≠ []) ∧
    (∀ (a b : Nat) (words : List Str) (wlist : List (List Str)),
      b < a → chunk_windows a b words = .ok wlist →
      ∀ i, (hi : i < wlist.length) →
        wlist[i] = (words.drop (i * (a - b))).take a) := by
  constructor
  · intro words h
    refine ⟨?_, ?_, ?_, ?_, ?_⟩
    · have e1 : chunk_windows 500 100 words =
        .ok ((pyRangeStep words.length 400).map fun i => (words.drop i).take 500) := rfl
      have hr : pyRangeStep 1200 400 = [0, 400, 800] := by decide
      have h3 : (words.drop 800).take 500 = words.drop 800 :=
        List.take_of_length_le (by simp [h])
      rw [e1, h, hr]
      simp only [List.map, List.drop_zero]
      rw [h3]
    · rw [List.take_drop]
    · simp [h]
    · have h48 : (words.take 800).take 400 = words.take 400 := by
        rw [List.take_take]; norm_num
      have hmid : (words.drop 400).take 400 = (words.take 800).drop 400 := by
        rw [List.take_drop]
      rw [hmid, ← h48, List.take_append_drop, List.take_append_drop]
    · intro w hw
      have hlen : 0 < w.length := by
        rcases List.mem_cons.mp hw with rfl | hw1
        · simp [h]
        rcases List.mem_cons.mp hw1 with rfl | hw2
        · simp [h]
        rcases List.mem_cons.mp hw2 with rfl | hw3
        · simp [h]
        · cases hw3
      exact List.ne_nil_of_length_pos hlen
  · intro a b words wlist hlt heq i hi
    unfold chunk_windows at heq
    rw [if_neg (by omega), if_neg (by omega)] at heq
    cases heq
    simp [pyRangeStep, Nat.mul_comm]

set_option maxRecDepth 8000 in
/-- Witness for C3: the 1200-token input of identical one-character tokens
produces exactly the three predicted windows. -/
theorem C3_chunking_witness :
    chunk_windows 500 100 (List.replicate 1200 [('w' : Char)]) =
      .ok [List.replicate 500 [('w' : Char)], List.replicate 500 [('w' : Char)],
        List.replicate 400 [('w' : Char)]] := by
  have h := (C3_chunking.1 (List.replicate 1200 [('w' : Char)]) (by simp)).1
  simpa using h

/-- C5: a candidate that fails hydration or an active filter is dropped and
never replaced — the result list is the filter-map of the candidate list,
so with at most `top_k` candidates at most `top_k` results come back, the
result count is exactly the number of surviving candidates, and in the
spec's scenario (5 nearest neighbors, all resolving, department filter
matching exactly 2) exactly 2 results are returned. -/
theorem C5_filter_drop_not_replace :
    (∀ st f g (cands : List (Nat × ℚ)) (k : Nat),
      cands.length ≤ k → (query_documents st f g cands).length ≤ k) ∧
    (∀ st f g (cands : List (Nat × ℚ)),
      (query_documents st f g cands).length =
        cands.countP (fun c => (hydrate_candidate st f g c).isSome)) ∧
    (∀ st f (cands : List (Nat × ℚ)),
      cands.length = 5 →
      (∀ c ∈ cands, (get_chunk_row st c.1).isSome) →
      cands.countP (fun c => (hydrate_candidate st f none c).isSome) = 2 →
      (query_documents st f none cands).length = 2) := by
  have hlen : ∀ st f g (cands : List (Nat × ℚ)),
      (query_documents st f g cands).length =
        cands.countP (fun c => (hydrate_candidate st f g c).isSome) := by
    intro st f g cands
    exact List.length_filterMap_eq_countP _ _
  refine ⟨?_, hlen, ?_⟩
  · intro st f g cands k hk
    exact le_trans (List.length_filterMap_le _ _) hk
  · intro st f cands _ _ hc
    rw [hlen, hc]

/-- Witness for C5: in the two-document state `c5_state` the department
filter `clerk` matches 2 of the 5 resolving candidates and exactly 2
results are returned. -/
theorem C5_filter_drop_not_replace_witness :
    (query_documents c5_state (some (("clerk").data)) none c5_cands).length
      = 2 := by
  apply C5_filter_drop_not_replace.2.2 c5_state (some (("clerk").data))
    c5_cands (by decide) (by decide) (by decide)

/-- C6: the relevance score `1 / (1 + d)` lies in `(0, 1]` for every
non-negative distance and is strictly decreasing in the distance; the
result loop preserves the candidate order, so candidates sorted by
ascending distance (as FAISS returns them) yield results sorted by
non-increasing score; and for the two distances 1/10 and 9/10 the
1/10-distance chunk is returned first with the strictly higher score. -/
theorem C6_ranking :
    (∀ d : ℚ, 0 ≤ d → 0 < relevance d ∧ relevance d ≤ 1) ∧
    (∀ e f : ℚ, 0 ≤ e → e < f → relevance f < relevance e) ∧
    (∀ st dep dt (cands : List (Nat × ℚ)),
      (∀ c ∈ cands, 0 ≤ c.2) →
      cands.Pairwise (fun a b => a.2 ≤ b.2) →
      (query_documents st dep dt cands).Pairwise
        (fun a b => b.relevance_score ≤ a.relevance_score)) ∧
    (∀ st dep dt (i j : Nat) (r1 r2 : QueryResult),
      hydrate_candidate st dep dt (i, 1/10) = some r1 →
      hydrate_candidate st dep dt (j, 9/10) = some r2 →
      query_documents st dep dt [(i, 1/10), (j, 9/10)] = [r1, r2] ∧
      r2.relevance_score < r1.relevance_score) := by
  have hb : ∀ d : ℚ, 0 ≤ d → (0:ℚ) < 1 + d := by intro d hd; linarith
  refine ⟨?_, ?_, ?_, ?_⟩
  · intro d hd
    constructor
    · exact one_div_pos.mpr (hb d hd)
    · rw [relevance, div_le_one (hb d hd)]; linarith
  · intro e f he hef
    exact one_div_lt_one_div_of_lt (hb e he) (by linarith)
  · intro st dep dt cands hnn hsort
    have hsort2 : cands.Pairwise (fun a b => 0 ≤ a.2 ∧ a.2 ≤ b.2) :=
      hsort.imp_of_mem (fun ha hb hab => ⟨hnn _ ha, hab⟩)
    apply hsort2.filterMap (hydrate_candidate st dep dt)
    intro a b hab r hr r2 hr2
    rw [hydrate_candidate_score hr, hydrate_candidate_score hr2]
    exact one_div_le_one_div_of_le (hb _ hab.1) (by linarith [hab.2])
  · intro st dep dt i j r1 r2 h1 h2
    constructor
    · simp only [query_documents, List.filterMap_cons, h1, h2,
        List.filterMap_nil]
    · rw [hydrate_candidate_score h1, hydrate_candidate_score h2]
      rw [relevance, relevance]
      norm_num

/-- Witness for C6: in the one-document state `c6_state` the chunk at
distance 1/10 precedes the chunk at distance 9/10 and carries the strictly
higher score. -/
theorem C6_ranking_witness :
    query_documents c6_state none none [(0, 1/10), (1, 9/10)] =
      [c6_r1, c6_r2] ∧
    c6_r2.relevance_score < c6_r1.relevance_score :=
  C6_ranking.2.2.2 c6_state none none 0 1 c6_r1 c6_r2 rfl rfl

/-- C7: when the generative backend is unavailable or raises,
`answer_question` returns the deterministic `_fallback_answer`, which for an
empty result list is the fixed no-documents message, is never the empty
string, and contains the title of every one of the top-3 results. -/
theorem C7_fallback :
    ∀ (question : Str) (docs : List CtxDoc),
      answer_question .unavailable question docs =
        fallback_answer question docs ∧
      answer_question .failure question docs =
        fallback_answer question docs ∧
      (docs = [] → fallback_answer question docs = noDocsMsg) ∧
      fallback_answer question docs ≠ [] ∧
      ∀ d ∈ docs.take 3, containsSub (fallback_answer question docs) d.title := by
  intro question docs
  refine ⟨rfl, rfl, ?_, ?_, ?_⟩
  · rintro rfl; rfl
  · by_cases hd : docs = []
    · subst hd
      show noDocsMsg ≠ []
      decide
    · rw [fallback_answer, if_neg hd, foldl_append_join]
      apply List.append_ne_nil_of_left_ne_nil
      apply List.append_ne_nil_of_left_ne_nil
      apply List.append_ne_nil_of_left_ne_nil
      decide
  · intro d hd
    have hdne : docs ≠ [] := by rintro rfl; simp at hd
    obtain ⟨i, hi⟩ := exists_mem_enumFrom 1 hd
    have hitem : containsSub (fallbackItem i d) d.title :=
      ⟨natStr i ++ (". From \x27").data,
       ("\x27 (").data ++ d.department ++ ("):\n   ").data ++
         d.chunk.take 200 ++ ("...\n\n").data,
       by simp [fallbackItem]⟩
    have hmem : fallbackItem i d ∈
        ((docs.take 3).enumFrom 1).map (fun p => fallbackItem p.1 p.2) :=
      List.mem_map.mpr ⟨(i, d), hi, rfl⟩
    have hflat := containsSub_join_of_mem hmem
    rw [fallback_answer, if_neg hdne, foldl_append_join]
    exact containsSub_extend_right _
      (containsSub_extend_right _ (containsSub_extend_left _ (hitem.trans hflat)))

/-- Witness for C7: with no results the fixed message is returned, and with
the three concrete results the fallback text contains the first title. -/
theorem C7_fallback_witness :
    fallback_answer (("what is the budget").data) [] = noDocsMsg ∧
    containsSub (fallback_answer (("what is the budget").data) c7_docs)
      (("Budget Report").data) := by
  constructor
  · exact (C7_fallback (("what is the budget").data) []).2.2.1 rfl
  · exact (C7_fallback (("what is the budget").data) c7_docs).2.2.2.2
      ⟨("Budget Report").data, ("finance").data, ("fiscal year numbers").data⟩
      (by decide)

/-- C8: for a known template name, `generate_document` substitutes each
supplied variable in turn and reports the placeholders still present in the
output as the warning list (an unknown name is an error instead); filling
`"Case: {case}, Date: {date}"` with `case ↦ CV-100` yields
`"Case: CV-100, Date: {date}"` with warning list `["date"]`. -/
theorem C8_template_filling :
    (∀ (templates : List (Str × Str)) (name : Str)
        (vars : List (Str × Str)) (t : Str),
      (templates.find? (fun p => p.1 = name)).map (fun p => p.2) = some t →
      generate_document templates name vars =
        .ok (fillVariables t vars, findPlaceholders (fillVariables t vars))) ∧
    (∀ (templates : List (Str × Str)) (name : Str) (vars : List (Str × Str)),
      (templates.find? (fun p => p.1 = name)).map (fun p => p.2) = none →
      generate_document templates name vars = .error ()) ∧
    fillVariables (("Case: {case}, Date: {date}").data)
      [(("case").data, ("CV-100").data)] =
      ("Case: CV-100, Date: {date}").data ∧
    findPlaceholders (("Case: CV-100, Date: {date}").data) = [("date").data] := by
  refine ⟨?_, ?_, by decide, by decide⟩
  · intro templates name vars t h
    unfold generate_document
    rw [h]
  · intro templates name vars h
    unfold generate_document
    rw [h]

/-- Witness for C8: the spec's template-filling example evaluated through
`generate_document` with a one-entry template table. -/
theorem C8_template_filling_witness :
    generate_document [(("t").data, ("Case: {case}, Date: {date}").data)]
      (("t").data) [(("case").data, ("CV-100").data)] =
      .ok (("Case: CV-100, Date: {date}").data, [("date").data]) := by
  have h := C8_template_filling.1
    [(("t").data, ("Case: {case}, Date: {date}").data)] (("t").data)
    [(("case").data, ("CV-100").data)]
    (("Case: {case}, Date: {date}").data) (by decide)
  rw [h, C8_template_filling.2.2.1, C8_template_filling.2.2.2]

/-- C10: substitution is sequential (a left fold of single replacements in
the mapping's iteration order); a key that occurs nowhere leaves the
template unchanged; a value containing a later key's placeholder gets that
placeholder replaced by the later pass (`{a} ↦ "{b}"` then `{b} ↦ "X"`
yields `X`); and an unused supplied key produces no warning. -/
theorem C10_sequential_substitution :
    (∀ (t k v : Str) (rest : List (Str × Str)),
      fillVariables t ((k, v) :: rest) =
        fillVariables (replaceAll (braceKey k) v t) rest) ∧
    (∀ (t old new : Str), ¬ containsSub t old → replaceAll old new t = t) ∧
    fillVariables (("Hello {a}").data)
      [(("a").data, ("\x7bb\x7d").data), (("b").data, ("X").data)] =
      ("Hello X").data ∧
    fillVariables (("Hi {x}").data)
      [(("x").data, ("1").data), (("zzz").data, ("2").data)] = ("Hi 1").data ∧
    findPlaceholders (("Hi 1").data) = [] := by
  refine ⟨fun t k v rest => rfl, ?_, by decide, by decide, by decide⟩
  intro t old new h
  exact replaceAll_of_not_contains old new t h

/-- Witness for C10: replacing an absent placeholder leaves the template
text unchanged. -/
theorem C10_sequential_substitution_witness :
    replaceAll (braceKey (("q").data)) (("z").data) (("Hi").data) =
      ("Hi").data :=
  C10_sequential_substitution.2.1 (("Hi").data) (braceKey (("q").data))
    (("z").data) (by decide)

end Butler
